import Mathlib

/-!
# Verification of the Bacteriophage genome-analysis client

Shallow embedding of the client code of the Bacteriophage repository:
the API service layer (`services/api.ts`), the Dashboard component
(fetch/analysis submission, status polling, PHASTEST fallback), and the
Jobs / Results pages (job list management, downloads, summary counters).

Pure logic (filename derivation, list filtering, counters) is embedded as
Lean functions; the stateful Dashboard component is embedded as explicit
state passing: component state is a structure, each handler or timer tick
is a function from state (and the response the server would give) to the
new state together with the list of HTTP requests it issues.
-/

/-- `GenomeData` record from `services/api.ts`: metadata for one genome
assembly, every field a string as in the TypeScript interface. -/
structure GenomeData where
  url : String
  genus : String
  species : String
  strain : String
  organism : String
  assembly_accession : String
  assembly_name : String
  assembly_level : String
  taxonomy_id : String
  submitter : String
  submission_date : String
  contig_count : String
  genome_size : String
  bioproject_id : String
deriving DecidableEq

/-- Shape of the `result` payload a job-status response may carry.  The
TypeScript type is `any`; the Dashboard only ever reads `result?.genomes`
and `result?.count`, so those two optional fields are modelled. -/
structure JobResult where
  genomes : Option (List GenomeData)
  count : Option Int
deriving DecidableEq

/-- A job record as the client receives it at runtime (the `JobStatus`
interface of `services/api.ts`).  The `status` field is a `String` here
because at runtime it is whatever string the server sent; the *declared*
TypeScript union type of the field is embedded separately as
`DeclaredStatus` below. -/
structure JobStatus where
  job_id : String
  job_type : String
  status : String
  progress : Int
  result : Option JobResult
  error : Option String
  created_at : String
  completed_at : Option String
deriving DecidableEq

/-- The declared TypeScript union type of `JobStatus.status` in
`services/api.ts`: `'pending' | 'running' | 'completed' | 'failed'`.
These four constructors are exactly the alternatives of that union. -/
inductive DeclaredStatus
  | pending
  | running
  | completed
  | failed
deriving DecidableEq

/-- The string value each alternative of the declared status union
denotes. -/
def declaredStatusString : DeclaredStatus → String
  | .pending => "pending"
  | .running => "running"
  | .completed => "completed"
  | .failed => "failed"

/-- Enumeration of the alternatives of the declared status union. -/
def declaredStatusValues : List DeclaredStatus :=
  [.pending, .running, .completed, .failed]

/-- The HTTP requests the client can issue, one constructor per endpoint
used in `services/api.ts` (including the would-be stop/resume endpoints,
so that their absence from the placeholder implementations is statable). -/
inductive Request
  | health
  | fetchGenomes (bioprojectId : String)
  | runResfinder
  | runPhastest
  | runVfdb
  | jobStatus (jobId : String)
  | listJobs
  | download (jobId : String) (fileType : String)
  | phastestStatus
  | phastestZipFiles
  | tempFastaZipFiles
  | downloadTempFastaZip (dir : String) (filename : String)
  | downloadResfinderFastaZip
  | cleanup (jobId : String)
  | cleanupFiles
  | stop (jobId : String)
  | resume (jobId : String)
deriving DecidableEq

/-- A request that submits a new job (creates a job record server-side):
the four submission endpoints of the API service. -/
def isJobSubmission : Request → Bool
  | .fetchGenomes _ => true
  | .runResfinder => true
  | .runPhastest => true
  | .runVfdb => true
  | _ => false

/-- `leadsWith pat l` is true when `pat` is an initial segment of `l`. -/
def leadsWith : List Char → List Char → Bool
  | [], _ => true
  | _ :: _, [] => false
  | a :: pat, b :: l => a == b && leadsWith pat l

/-- `containsSeg pat l` is true when `pat` occurs contiguously in `l`. -/
def containsSeg (pat : List Char) : List Char → Bool
  | [] => leadsWith pat []
  | l@(_ :: tl) => leadsWith pat l || containsSeg pat tl

/-- JavaScript `s.includes(pat)`: `pat` occurs as a substring of `s`. -/
def strIncludes (s pat : String) : Bool :=
  containsSeg pat.data s.data

/-- A whitespace character as JavaScript `String.prototype.trim` treats
it (restricted to the ASCII whitespace characters). -/
def jsIsSpace (c : Char) : Bool :=
  c == ' ' || c == '\t' || c == '\n' || c == '\r'

/-- JavaScript `s.trim()`: the string with leading and trailing
whitespace removed. -/
def jsTrim (s : String) : String :=
  String.mk (((s.data.dropWhile jsIsSpace).reverse.dropWhile jsIsSpace).reverse)

/-- JavaScript `x || d` on a nullable string: the default is taken when
the value is absent or the empty string (both falsy). -/
def jsOrString (x : Option String) (d : String) : String :=
  match x with
  | some v => if v == "" then d else v
  | none => d

/-- The genome list carried by a status response, when present
(`status.result?.genomes` in the Dashboard). -/
def resultGenomes (st : JobStatus) : Option (List GenomeData) :=
  match st.result with
  | some r => r.genomes
  | none => none

namespace JobsPage

/-- `Jobs.tsx` `handleDownload`: the filename under which a downloaded
artifact is saved, derived from the requested `fileType` (and, for the
PHASTEST bundle, the `jobId`).  Mirrors the if/else chain of the source:
substring tests for `vfdb` and `resfinder`, equality tests for the two
PHASTEST file types, default `results`. -/
def downloadFilename (jobId fileType : String) : String :=
  if strIncludes fileType "vfdb" then "vfdb_results.xlsx"
  else if strIncludes fileType "resfinder" then "resfinder_results.csv"
  else if fileType == "phastest_csv" then "phastest_results.csv"
  else if fileType == "phastest_zip" then "phastest_results_" ++ jobId ++ ".zip"
  else "results"

/-- `Jobs.tsx` `handleDeleteJob`: issues the cleanup request and removes
from the local job list every entry whose `job_id` equals the given
identifier (`jobs.filter(job => job.job_id !== jobId)`). -/
def handleDeleteJob (jobs : List JobStatus) (jobId : String) :
    List JobStatus × List Request :=
  (jobs.filter (fun job => job.job_id != jobId), [Request.cleanup jobId])

/-- `Jobs.tsx` `isPaused` test in the actions column, evaluated over the
declared status union type: `job.status === 'paused'`. -/
def isPausedCheck (s : DeclaredStatus) : Bool :=
  declaredStatusString s == "paused"

/-- `Jobs.tsx` summary counter source: jobs with status pending or
running (`['pending', 'running'].includes(job.status)`). -/
def runningJobs (jobs : List JobStatus) : List JobStatus :=
  jobs.filter (fun job => (["pending", "running"] : List String).contains job.status)

/-- `Jobs.tsx` summary counter source: jobs with status completed. -/
def completedJobs (jobs : List JobStatus) : List JobStatus :=
  jobs.filter (fun job => job.status == "completed")

/-- `Jobs.tsx` summary counter source: jobs with status failed. -/
def failedJobs (jobs : List JobStatus) : List JobStatus :=
  jobs.filter (fun job => job.status == "failed")

end JobsPage

namespace ResultsPage

/-- `Results.tsx` `handleDownload`: same filename derivation as the Jobs
page. -/
def downloadFilename (jobId fileType : String) : String :=
  if strIncludes fileType "vfdb" then "vfdb_results.xlsx"
  else if strIncludes fileType "resfinder" then "resfinder_results.csv"
  else if fileType == "phastest_csv" then "phastest_results.csv"
  else if fileType == "phastest_zip" then "phastest_results_" ++ jobId ++ ".zip"
  else "results"

/-- `Results.tsx` `handleDeleteJob`: identical to the Jobs page version. -/
def handleDeleteJob (jobs : List JobStatus) (jobId : String) :
    List JobStatus × List Request :=
  (jobs.filter (fun job => job.job_id != jobId), [Request.cleanup jobId])

end ResultsPage

/-- Dashboard `handleManualDownload`: the `fileType` passed to the
download endpoint for an analysis type. -/
def manualDownloadFileType (ty : String) : String :=
  if ty == "vfdb" then "vfdb_excel" else ty ++ "_csv"

/-- Dashboard `handleManualDownload`: the filename under which the
artifact is saved. -/
def manualDownloadFilename (ty : String) : String :=
  if ty == "vfdb" then "vfdb_results.xlsx" else ty ++ "_results.csv"

/-- `apiService.stopJob`: an unimplemented placeholder that only logs to
the console — it issues no HTTP request at all. -/
def stopJob (_jobId : String) : List Request := []

/-- `apiService.resumeJob`: an unimplemented placeholder that only logs
to the console — it issues no HTTP request at all. -/
def resumeJob (_jobId : String) : List Request := []

/-- `Jobs.tsx` `handleStopJob`: awaits the (no-op) `stopJob` and then
reloads the job list. -/
def handleStopJob (jobId : String) : List Request :=
  stopJob jobId ++ [Request.listJobs]

/-- `Jobs.tsx` `handleResumeJob`: awaits the (no-op) `resumeJob` and then
reloads the job list. -/
def handleResumeJob (jobId : String) : List Request :=
  resumeJob jobId ++ [Request.listJobs]

/-- The Dashboard component state (the `useState` hooks the modelled
handlers read or write).  `analysisJobs` is the keyed object
`{ [type]: JobStatus }`, modelled as an association list whose keys are
the analysis types. -/
structure DashboardState where
  bioprojectId : String
  genomeUrls : List GenomeData
  error : Option String
  successMessage : Option String
  fetchJobId : Option String
  fetchStatus : Option JobStatus
  analysisJobs : List (String × JobStatus)
  showPhastestFallback : Bool
  downloadingFasta : Bool
deriving DecidableEq

/-- JavaScript object update `{ ...prev, [ty]: st }` on the keyed
`analysisJobs` object: replace the value at an existing key in place, or
append a new key at the end. -/
def setAnalysisJob : List (String × JobStatus) → String → JobStatus →
    List (String × JobStatus)
  | [], ty, st => [(ty, st)]
  | (k, v) :: rest, ty, st =>
    if k == ty then (k, st) :: rest else (k, v) :: setAnalysisJob rest ty st

/-- JavaScript object read `analysisJobs[ty]`. -/
def lookupAnalysisJob : List (String × JobStatus) → String → Option JobStatus
  | [], _ => none
  | (k, v) :: rest, ty => if k == ty then some v else lookupAnalysisJob rest ty

/-- The whole client-side polling machinery: the Dashboard state plus the
set of per-submission polling intervals registered by `handleRunAnalysis`
(each identified by the analysis type and the `job_id` it polls; an entry
is present exactly while that interval has not been cleared). -/
structure PollSystem where
  dash : DashboardState
  runIntervals : List (String × String)
deriving DecidableEq

/-- Outcome of one `apiService.getJobStatus` call as the polling code
observes it: a status payload, or a rejected promise. -/
inductive PollResponse
  | ok (st : JobStatus)
  | fail
deriving DecidableEq

/-- One timer tick of one of the three Dashboard polling mechanisms:
the fetch-status interval, the shared analysis-jobs interval (one entry
of its for-loop, identified by analysis type), or one per-submission
interval registered by `handleRunAnalysis`. -/
inductive PollEvent
  | fetchTick (resp : PollResponse)
  | loopTick (ty : String) (resp : PollResponse)
  | intervalTick (ty : String) (jobId : String) (resp : PollResponse)
deriving DecidableEq

/-- One tick of the Dashboard fetch-status polling interval (2000 ms):
if `fetchJobId` is set, query it; store the response in `fetchStatus`;
on `completed` with a genome-bearing result, store the genomes and clear
`fetchJobId`; on `failed`, record the error and clear `fetchJobId`; any
other response (including a rejected promise, which is only logged)
leaves polling active.  Returns the new state and the job ids queried. -/
def fetchPollTick (s : DashboardState) (resp : PollResponse) :
    DashboardState × List String :=
  match s.fetchJobId with
  | none => (s, [])
  | some jid =>
    match resp with
    | .fail => (s, [jid])
    | .ok st =>
      let s1 := { s with fetchStatus := some st }
      if st.status == "completed" && (resultGenomes st).isSome then
        ({ s1 with genomeUrls := (resultGenomes st).getD [],
                   fetchJobId := none }, [jid])
      else if st.status == "failed" then
        ({ s1 with error := some (jsOrString st.error "Failed to fetch genomes"),
                   fetchJobId := none }, [jid])
      else (s1, [jid])

/-- One entry of the for-loop in the Dashboard analysis-jobs polling
interval (3000 ms): the entry at key `ty` is queried only while its
stored status is pending or running; a successful response overwrites the
entry; a rejected promise is only logged and changes nothing. -/
def analysisLoopTick (s : DashboardState) (ty : String) (resp : PollResponse) :
    DashboardState × List String :=
  match lookupAnalysisJob s.analysisJobs ty with
  | none => (s, [])
  | some job =>
    if (["pending", "running"] : List String).contains job.status then
      match resp with
      | .fail => (s, [job.job_id])
      | .ok st =>
        ({ s with analysisJobs := setAnalysisJob s.analysisJobs ty st }, [job.job_id])
    else (s, [])

/-- One tick of a per-submission polling interval created by
`handleRunAnalysis` (2000 ms): while registered, it queries its `job_id`,
stores the response under its analysis type, and clears itself when the
response status is completed or failed — or when the query fails. -/
def runIntervalTick (ps : PollSystem) (ty jid : String) (resp : PollResponse) :
    PollSystem × List String :=
  if ps.runIntervals.contains (ty, jid) then
    match resp with
    | .fail => ({ ps with runIntervals := ps.runIntervals.erase (ty, jid) }, [jid])
    | .ok st =>
      let dash := { ps.dash with analysisJobs := setAnalysisJob ps.dash.analysisJobs ty st }
      if st.status == "completed" || st.status == "failed" then
        ({ dash := dash, runIntervals := ps.runIntervals.erase (ty, jid) }, [jid])
      else ({ ps with dash := dash }, [jid])
  else (ps, [])

/-- One polling step of the whole client: dispatch on which timer fired.
Returns the new system state and the job ids whose status was queried. -/
def pollStep (ps : PollSystem) (e : PollEvent) : PollSystem × List String :=
  match e with
  | .fetchTick resp =>
    let p := fetchPollTick ps.dash resp
    ({ ps with dash := p.1 }, p.2)
  | .loopTick ty resp =>
    let p := analysisLoopTick ps.dash ty resp
    ({ ps with dash := p.1 }, p.2)
  | .intervalTick ty jid resp => runIntervalTick ps ty jid resp

/-- Polling interval of the Dashboard fetch-status effect, in
milliseconds (`setInterval(..., 2000)`). -/
def fetchPollIntervalMs : Nat := 2000

/-- Polling interval of the Dashboard analysis-jobs effect, in
milliseconds (`setInterval(..., 3000)`). -/
def analysisLoopIntervalMs : Nat := 3000

/-- Polling interval of the per-submission interval in
`handleRunAnalysis`, in milliseconds (`setInterval(..., 2000)`). -/
def runAnalysisPollIntervalMs : Nat := 2000

/-- Outcome of the PHASTEST availability probe
(`apiService.checkPhastestStatus`): a status string, or a thrown error. -/
inductive ProbeOutcome
  | ok (status : String)
  | fail
deriving DecidableEq

/-- Outcome of a submission call: the returned `job_id`, or a thrown
error carrying the message the catch block would surface. -/
inductive SubmitOutcome
  | ok (jobId : String)
  | fail (msg : String)
deriving DecidableEq

/-- The optimistic entry `handleRunAnalysis` stores for a freshly
submitted analysis job. -/
def initialAnalysisJob (ty jid now : String) : JobStatus :=
  { job_id := jid, job_type := ty, status := "pending", progress := 0,
    result := none, error := none, created_at := now, completed_at := none }

/-- Shared tail of `handleRunAnalysis` once submission is attempted: on
success, record the pending entry and register the per-submission polling
interval; on a thrown error, record the error message. -/
def runSubmit (ps : PollSystem) (dash0 : DashboardState) (ty : String)
    (submit : SubmitOutcome) (now : String) (reqs : List Request) :
    PollSystem × List Request :=
  match submit with
  | .ok jid =>
    ({ dash := { dash0 with
          analysisJobs := setAnalysisJob dash0.analysisJobs ty (initialAnalysisJob ty jid now) },
       runIntervals := ps.runIntervals ++ [(ty, jid)] }, reqs)
  | .fail msg => ({ ps with dash := { dash0 with error := some msg } }, reqs)

/-- Dashboard `handleRunAnalysis`: clears the error banner; for PHASTEST
it first probes `/phastest-status` and, when the probe reports
`unavailable` or itself throws, shows the fallback path and returns
without submitting; otherwise it submits to the matching endpoint,
records the optimistic pending entry and starts the per-submission
polling interval; an unknown type throws and is caught as an error.
Returns the new system state and the requests issued, in order. -/
def handleRunAnalysis (ps : PollSystem) (ty : String) (probe : ProbeOutcome)
    (submit : SubmitOutcome) (now : String) : PollSystem × List Request :=
  let dash0 := { ps.dash with error := none }
  if ty == "phastest" then
    match probe with
    | .fail =>
      ({ ps with dash := { dash0 with showPhastestFallback := true } },
       [Request.phastestStatus])
    | .ok st =>
      if st == "unavailable" then
        ({ ps with dash := { dash0 with showPhastestFallback := true } },
         [Request.phastestStatus])
      else
        runSubmit ps dash0 ty submit now [Request.phastestStatus, Request.runPhastest]
  else if ty == "resfinder" then
    runSubmit ps dash0 ty submit now [Request.runResfinder]
  else if ty == "vfdb" then
    runSubmit ps dash0 ty submit now [Request.runVfdb]
  else
    ({ ps with dash := { dash0 with error := some ("Unknown analysis type: " ++ ty) } },
     [])

/-- Dashboard `handleFetchGenomes`: an empty or all-whitespace BioProject
ID is rejected with a validation error before any request is made;
otherwise the fetch job is submitted and on success its `job_id` is
stored as `fetchJobId` (the polling target). -/
def handleFetchGenomes (s : DashboardState) (submit : SubmitOutcome) :
    DashboardState × List Request :=
  if jsTrim s.bioprojectId == "" then
    ({ s with error := some "Please enter a BioProject ID" }, [])
  else
    let s1 := { s with error := none, fetchStatus := none }
    match submit with
    | .ok jid => ({ s1 with fetchJobId := some jid }, [Request.fetchGenomes s.bioprojectId])
    | .fail msg => ({ s1 with error := some msg }, [Request.fetchGenomes s.bioprojectId])

/-- Dashboard `handlePhastestFallback`: triggers a direct browser
download of `/download-resfinder-fasta-zip`, shows a success message and
hides the fallback banner.  It touches no job-tracking state and calls no
submission endpoint. -/
def handlePhastestFallback (s : DashboardState) : DashboardState × List Request :=
  ({ s with downloadingFasta := false,
            error := none,
            successMessage := some "FASTA files download started! Check your downloads folder.",
            showPhastestFallback := false },
   [Request.downloadResfinderFastaZip])

/-- An empty Dashboard state, the base of the concrete scenarios below. -/
def emptyDash : DashboardState :=
  { bioprojectId := "", genomeUrls := [], error := none, successMessage := none,
    fetchJobId := none, fetchStatus := none, analysisJobs := [],
    showPhastestFallback := false, downloadingFasta := false }

/-- A PHASTEST job as tracked right after submission. -/
def c1Job : JobStatus := initialAnalysisJob "phastest" "j1" "t0"

/-- The same job as a later status response reports it, completed. -/
def c1Done : JobStatus :=
  { c1Job with status := "completed", progress := 100, completed_at := some "t1" }

/-- Scenario for claim C1: one submitted PHASTEST job, tracked both by
the shared analysis-jobs loop and by its dedicated per-submission
interval, exactly as `handleRunAnalysis` leaves the client. -/
def c1Sys : PollSystem :=
  { dash := { emptyDash with analysisJobs := [("phastest", c1Job)] },
    runIntervals := [("phastest", "j1")] }

/-- Dashboard state after the analysis-jobs loop stored the terminal
status of the PHASTEST job. -/
def c1TermDash : DashboardState :=
  { emptyDash with analysisJobs := [("phastest", c1Done)] }

/-- A completed fetch-status response that carries no result payload. -/
def c1FetchDone : JobStatus :=
  { job_id := "f1", job_type := "fetch_genomes", status := "completed",
    progress := 100, result := none, error := none, created_at := "t0",
    completed_at := some "t1" }

/-- A failed fetch-status response. -/
def c1FetchFailed : JobStatus :=
  { c1FetchDone with status := "failed", progress := 0 }

/-- Dashboard state while the fetch job `f1` is being polled. -/
def c1FetchDash : DashboardState := { emptyDash with fetchJobId := some "f1" }

/-- Scenario for claim C1 at the system level: polling fetch job `f1`. -/
def c1FetchSys : PollSystem := { dash := c1FetchDash, runIntervals := [] }

/-- A ResFinder job as tracked right after submission. -/
def c4Job : JobStatus := initialAnalysisJob "resfinder" "j2" "t0"

/-- Scenario for claim C4: one submitted ResFinder job being polled. -/
def c4Sys : PollSystem :=
  { dash := { emptyDash with analysisJobs := [("resfinder", c4Job)] },
    runIntervals := [("resfinder", "j2")] }

/-- Dashboard state whose BioProject ID input is all whitespace. -/
def c7Dash : DashboardState := { emptyDash with bioprojectId := "   " }

/-- A completed job unrelated to the deletion in the C9 scenario. -/
def c9Keep : JobStatus :=
  { job_id := "j-keep", job_type := "resfinder", status := "completed",
    progress := 100, result := none, error := none, created_at := "t0",
    completed_at := some "t1" }

/-- The job deleted in the C9 scenario. -/
def c9Gone : JobStatus :=
  { job_id := "j-del", job_type := "vfdb", status := "completed",
    progress := 100, result := none, error := none, created_at := "t0",
    completed_at := some "t1" }

/-- A paused job, as the server could report one at runtime. -/
def c10Paused : JobStatus :=
  { job_id := "p1", job_type := "phastest", status := "paused",
    progress := 50, result := none, error := none, created_at := "t0",
    completed_at := none }

/-- A job list containing one job of each observable status, including a
paused one. -/
def c10Jobs : List JobStatus :=
  [ initialAnalysisJob "resfinder" "a1" "t0",
    { initialAnalysisJob "vfdb" "a2" "t0" with status := "running", progress := 10 },
    c9Keep,
    { c9Gone with status := "failed" },
    c10Paused ]

/-!
## Helper lemmas
-/

/-- Bridge between `List.contains` and membership for pair lists. -/
theorem contains_pair_of_not_mem {l : List (String × String)}
    {x : String × String} (h : ¬ x ∈ l) : l.contains x = false := by
  simp [List.contains]
  exact h

/-- The pollable-status test of the analysis-jobs loop, as a
proposition. -/
theorem contains_status_iff (s : String) :
    ((["pending", "running"] : List String).contains s = true)
      ↔ (s = "pending" ∨ s = "running") := by
  simp [List.contains]

/-- Three pairwise-incompatible boolean predicates select at most the
whole list between them. -/
theorem three_disjoint_filter_length_le {α : Type} (p q r : α → Bool)
    (hdisj : ∀ a, (if p a then 1 else 0) + (if q a then 1 else 0)
      + (if r a then 1 else 0) ≤ 1) :
    ∀ l : List α,
      (l.filter p).length + (l.filter q).length + (l.filter r).length
        ≤ l.length := by
  intro l
  induction l with
  | nil => simp
  | cons a t ih =>
    have ha := hdisj a
    rw [List.filter_cons, List.filter_cons, List.filter_cons]
    cases hp : p a <;> cases hq : q a <;> cases hr : r a <;>
      simp [hp, hq, hr] at ha ⊢ <;> omega

/-- Three pairwise-incompatible boolean predicates select exactly the
whole list between them precisely when every element satisfies one. -/
theorem three_disjoint_filter_length_eq_iff {α : Type} (p q r : α → Bool)
    (hdisj : ∀ a, (if p a then 1 else 0) + (if q a then 1 else 0)
      + (if r a then 1 else 0) ≤ 1) :
    ∀ l : List α,
      ((l.filter p).length + (l.filter q).length + (l.filter r).length
          = l.length
        ↔ ∀ a ∈ l, p a = true ∨ q a = true ∨ r a = true) := by
  intro l
  induction l with
  | nil => simp
  | cons a t ih =>
    have ha := hdisj a
    have hle := three_disjoint_filter_length_le p q r hdisj t
    rw [List.filter_cons, List.filter_cons, List.filter_cons]
    cases hp : p a <;> cases hq : q a <;> cases hr : r a <;>
      simp [hp, hq, hr] at ha ⊢ <;>
      first
      | (rw [← ih]; omega)
      | omega


/-!
## Claim C2 — the status values of the public client interface
-/

/-- C2 counterexample: contrary to the claim, `paused` is not a
representable value of the declared client status type — the status union
of `services/api.ts` has no alternative denoting `"paused"`. -/
theorem c2_counterexample :
    ¬ ∃ s : DeclaredStatus, declaredStatusString s = "paused" := by
  rintro ⟨s, hs⟩
  cases s <;> simp [declaredStatusString] at hs

/-- C2 (amended): the declared client status union has exactly the four
values pending, running, completed, failed; `paused` is not among them,
and consequently the Jobs page's `status === 'paused'` test is false at
every value of the declared type. -/
theorem c2_amended :
    declaredStatusValues.map declaredStatusString
      = ["pending", "running", "completed", "failed"]
    ∧ declaredStatusValues.Nodup
    ∧ (∀ s : DeclaredStatus, s ∈ declaredStatusValues)
    ∧ (∀ s : DeclaredStatus, JobsPage.isPausedCheck s = false) := by
  refine ⟨rfl, by decide, ?_, ?_⟩
  · intro s
    cases s <;> simp [declaredStatusValues]
  · intro s
    cases s <;> rfl

/-!
## Claim C5 — stop and resume
-/

/-- C5 counterexample: `stopJob` and `resumeJob` issue no request at all
— in particular no stop or resume request for the given job — so neither
a `running -> paused` nor a `paused -> running` transition is ever
requested, and no `InvalidTransition` error can be received. -/
theorem c5_counterexample :
    stopJob "job-1" = [] ∧ resumeJob "job-1" = []
    ∧ ¬ Request.stop "job-1" ∈ handleStopJob "job-1"
    ∧ ¬ Request.resume "job-1" ∈ handleResumeJob "job-1" := by
  decide

/-- C5 (amended): `apiService.stopJob` and `apiService.resumeJob` are
unimplemented placeholders that issue no backend request; the Jobs page's
stop/resume handlers therefore request no state transition — they only
reload the job list — and never receive an `InvalidTransition` error. -/
theorem c5_amended :
    ∀ jobId : String,
      stopJob jobId = [] ∧ resumeJob jobId = []
      ∧ handleStopJob jobId = [Request.listJobs]
      ∧ handleResumeJob jobId = [Request.listJobs] := by
  intro jobId
  exact ⟨rfl, rfl, rfl, rfl⟩

/-!
## Claim C6 — download filenames
-/

/-- C6: the filename under which an artifact is saved is derived
deterministically from the job type and file type: ResFinder results as
`resfinder_results.csv`, VFDB results as `vfdb_results.xlsx`, the
PHASTEST CSV as `phastest_results.csv` and the PHASTEST bundle as
`phastest_results_{job_id}.zip` — identically on the Jobs page, the
Results page, and the Dashboard's manual download. -/
theorem c6_download_filenames :
    ∀ jobId : String,
      JobsPage.downloadFilename jobId "resfinder_csv" = "resfinder_results.csv"
      ∧ JobsPage.downloadFilename jobId "vfdb_csv" = "vfdb_results.xlsx"
      ∧ JobsPage.downloadFilename jobId "vfdb_excel" = "vfdb_results.xlsx"
      ∧ JobsPage.downloadFilename jobId "phastest_csv" = "phastest_results.csv"
      ∧ JobsPage.downloadFilename jobId "phastest_zip"
          = "phastest_results_" ++ jobId ++ ".zip"
      ∧ (∀ fileType : String,
          ResultsPage.downloadFilename jobId fileType
            = JobsPage.downloadFilename jobId fileType)
      ∧ manualDownloadFileType "resfinder" = "resfinder_csv"
      ∧ manualDownloadFileType "phastest" = "phastest_csv"
      ∧ manualDownloadFileType "vfdb" = "vfdb_excel"
      ∧ manualDownloadFilename "resfinder" = "resfinder_results.csv"
      ∧ manualDownloadFilename "phastest" = "phastest_results.csv"
      ∧ manualDownloadFilename "vfdb" = "vfdb_results.xlsx" := by
  intro jobId
  exact ⟨rfl, rfl, rfl, rfl, rfl, fun _ => rfl, rfl, rfl, rfl, rfl, rfl, rfl⟩

/-!
## Claim C7 — empty BioProject ID
-/

/-- C7: a fetch-genomes submission whose BioProject ID trims to the empty
string is rejected synchronously with the validation error message, no
request is issued, and nothing else of the component state changes — in
particular no `job_id` is stored. -/
theorem c7_empty_bioproject_rejected :
    ∀ (s : DashboardState) (submit : SubmitOutcome),
      jsTrim s.bioprojectId = "" →
      (handleFetchGenomes s submit).2 = []
      ∧ (handleFetchGenomes s submit).1
          = { s with error := some "Please enter a BioProject ID" } := by
  intro s submit h
  simp [handleFetchGenomes, h]

/-- Witness for C7 at the concrete all-whitespace input `"   "`. -/
theorem c7_empty_bioproject_rejected_witness :
    (handleFetchGenomes c7Dash (SubmitOutcome.ok "j9")).2 = []
    ∧ (handleFetchGenomes c7Dash (SubmitOutcome.ok "j9")).1.fetchJobId = none := by
  have h := c7_empty_bioproject_rejected c7Dash (SubmitOutcome.ok "j9") (by decide)
  exact ⟨h.1, by rw [h.2]; rfl⟩

/-!
## Claim C8 — the PHASTEST fallback is job-independent
-/

/-- C8: triggering the PHASTEST fallback download leaves every piece of
job-tracking state (the fetch job reference, the analysis job entries,
the fetched genome list) exactly as it was, and the only request issued
is the fallback bundle download — no job-submission endpoint is called. -/
theorem c8_fallback_frame :
    ∀ s : DashboardState,
      (handlePhastestFallback s).1.fetchJobId = s.fetchJobId
      ∧ (handlePhastestFallback s).1.analysisJobs = s.analysisJobs
      ∧ (handlePhastestFallback s).1.genomeUrls = s.genomeUrls
      ∧ (handlePhastestFallback s).1.fetchStatus = s.fetchStatus
      ∧ (handlePhastestFallback s).2 = [Request.downloadResfinderFastaZip]
      ∧ (handlePhastestFallback s).2.filter isJobSubmission = [] := by
  intro s
  exact ⟨rfl, rfl, rfl, rfl, rfl, rfl⟩

/-!
## Helper lemmas about the polling step functions
-/

/-- A fetch poll tick with no tracked fetch job does nothing. -/
theorem fetchPollTick_of_none (s : DashboardState) (resp : PollResponse)
    (h : s.fetchJobId = none) : fetchPollTick s resp = (s, []) := by
  simp [fetchPollTick, h]

/-- A failed fetch poll is only logged: the state is unchanged and the
same job will be queried again. -/
theorem fetchPollTick_fail (s : DashboardState) (jid : String)
    (h : s.fetchJobId = some jid) :
    fetchPollTick s PollResponse.fail = (s, [jid]) := by
  simp [fetchPollTick, h]

/-- A fetch poll response that is failed, or completed with a genome
list, clears the polled fetch job reference. -/
theorem fetchPollTick_terminal (s : DashboardState) (st : JobStatus)
    (h : st.status = "failed"
      ∨ (st.status = "completed" ∧ (resultGenomes st).isSome = true)) :
    (fetchPollTick s (PollResponse.ok st)).1.fetchJobId = none := by
  cases hfid : s.fetchJobId with
  | none => simp [fetchPollTick, hfid]
  | some jid =>
    rcases h with h | ⟨h, hg⟩
    · have h1 : (st.status == "completed" && (resultGenomes st).isSome) = false := by
        simp [h]
      simp [fetchPollTick, hfid, h1, h]
    · have h1 : (st.status == "completed" && (resultGenomes st).isSome) = true := by
        simp [h, hg]
      simp [fetchPollTick, hfid, h1]

/-- A fetch poll tick never changes anything but the fetch-related
fields; in particular the analysis jobs are untouched. -/
theorem fetchPollTick_analysisJobs (s : DashboardState) (resp : PollResponse) :
    (fetchPollTick s resp).1.analysisJobs = s.analysisJobs := by
  cases hfid : s.fetchJobId with
  | none => simp [fetchPollTick, hfid]
  | some jid =>
    cases resp with
    | fail => simp [fetchPollTick, hfid]
    | ok st =>
      by_cases h1 : (st.status == "completed" && (resultGenomes st).isSome) = true
      · simp [fetchPollTick, hfid, h1]
      · by_cases h2 : (st.status == "failed") = true
        · simp [fetchPollTick, hfid, h1, h2]
        · simp [fetchPollTick, hfid, h1, h2]

/-- Bridge between membership and `List.contains` for pair lists. -/
theorem contains_pair_of_mem {l : List (String × String)}
    {x : String × String} (h : x ∈ l) : l.contains x = true := by
  simp [List.contains]
  exact h

/-- Bridge between `List.contains` and membership for pair lists. -/
theorem mem_of_contains_pair {l : List (String × String)}
    {x : String × String} (h : l.contains x = true) : x ∈ l := by
  simpa [List.contains] using h

/-- A failed analysis-loop poll is only logged: the Dashboard state is
unchanged. -/
theorem analysisLoopTick_fail (s : DashboardState) (ty : String) :
    (analysisLoopTick s ty PollResponse.fail).1 = s := by
  cases hl : lookupAnalysisJob s.analysisJobs ty with
  | none => simp [analysisLoopTick, hl]
  | some job =>
    simp only [analysisLoopTick, hl]
    split <;> rfl

/-- A failed analysis-loop poll of a pollable entry still issues the
query and leaves the state unchanged. -/
theorem analysisLoopTick_fail_queries (s : DashboardState) (ty : String)
    (job : JobStatus) (hlook : lookupAnalysisJob s.analysisJobs ty = some job)
    (hpoll : job.status = "pending" ∨ job.status = "running") :
    analysisLoopTick s ty PollResponse.fail = (s, [job.job_id]) := by
  rcases hpoll with h | h <;> simp [analysisLoopTick, hlook, h]

/-- The analysis-jobs loop never queries an entry whose stored status is
not pending or running. -/
theorem analysisLoopTick_terminal (s : DashboardState) (ty : String)
    (job : JobStatus) (resp : PollResponse)
    (hlook : lookupAnalysisJob s.analysisJobs ty = some job)
    (hstat : ¬ (job.status = "pending" ∨ job.status = "running")) :
    analysisLoopTick s ty resp = (s, []) := by
  simp only [analysisLoopTick, hlook]
  split
  next hcond => exact absurd ((contains_status_iff job.status).1 hcond) hstat
  next => rfl

/-- An analysis-loop tick never touches the fetch job reference. -/
theorem analysisLoopTick_fetchJobId (s : DashboardState) (ty : String)
    (resp : PollResponse) :
    (analysisLoopTick s ty resp).1.fetchJobId = s.fetchJobId := by
  cases hl : lookupAnalysisJob s.analysisJobs ty with
  | none => simp [analysisLoopTick, hl]
  | some job =>
    cases resp with
    | fail =>
      simp only [analysisLoopTick, hl]
      split <;> rfl
    | ok st =>
      simp only [analysisLoopTick, hl]
      split <;> rfl

/-- A per-submission interval that is not registered neither queries nor
changes anything. -/
theorem runIntervalTick_not_mem (ps : PollSystem) (ty jid : String)
    (resp : PollResponse) (h : ¬ (ty, jid) ∈ ps.runIntervals) :
    runIntervalTick ps ty jid resp = (ps, []) := by
  simp only [runIntervalTick]
  split
  next hc => exact absurd (mem_of_contains_pair hc) h
  next => rfl

/-- A terminal response clears the per-submission interval that received
it. -/
theorem runIntervalTick_terminal (ps : PollSystem) (ty jid : String)
    (st : JobStatus) (h : st.status = "completed" ∨ st.status = "failed") :
    (runIntervalTick ps ty jid (PollResponse.ok st)).1.runIntervals
      = ps.runIntervals.erase (ty, jid) := by
  simp only [runIntervalTick]
  split
  next =>
    have hterm : (st.status == "completed" || st.status == "failed") = true := by
      rcases h with h | h <;> simp [h]
    simp [hterm]
  next hc =>
    have hmem : ¬ (ty, jid) ∈ ps.runIntervals :=
      fun hm => hc (contains_pair_of_mem hm)
    rw [List.erase_of_not_mem hmem]

/-- A failed poll clears the per-submission interval that issued it
(the catch block calls `clearInterval`). -/
theorem runIntervalTick_fail (ps : PollSystem) (ty jid : String) :
    (runIntervalTick ps ty jid PollResponse.fail).1.runIntervals
      = ps.runIntervals.erase (ty, jid) := by
  simp only [runIntervalTick]
  split
  next => rfl
  next hc =>
    have hmem : ¬ (ty, jid) ∈ ps.runIntervals :=
      fun hm => hc (contains_pair_of_mem hm)
    rw [List.erase_of_not_mem hmem]

/-- A per-submission interval tick either leaves the registered intervals
unchanged or erases exactly itself. -/
theorem runIntervalTick_intervals (ps : PollSystem) (ty jid : String)
    (resp : PollResponse) :
    (runIntervalTick ps ty jid resp).1.runIntervals = ps.runIntervals
    ∨ (runIntervalTick ps ty jid resp).1.runIntervals
        = ps.runIntervals.erase (ty, jid) := by
  simp only [runIntervalTick]
  split
  next =>
    cases resp with
    | fail => exact Or.inr rfl
    | ok st =>
      by_cases hterm : (st.status == "completed" || st.status == "failed") = true
      · right
        simp [hterm]
      · left
        simp [hterm]
  next => exact Or.inl rfl

/-- A per-submission interval tick never touches the fetch job
reference. -/
theorem runIntervalTick_fetchJobId (ps : PollSystem) (ty jid : String)
    (resp : PollResponse) :
    (runIntervalTick ps ty jid resp).1.dash.fetchJobId = ps.dash.fetchJobId := by
  simp only [runIntervalTick]
  split
  next =>
    cases resp with
    | fail => rfl
    | ok st =>
      by_cases hterm : (st.status == "completed" || st.status == "failed") = true
      · simp [hterm]
      · simp [hterm]
  next => rfl

/-- No polling step registers a new per-submission interval: an interval
absent before a step is absent after it. -/
theorem pollStep_intervals_not_mem (ps : PollSystem) (e : PollEvent)
    (ty jid : String) (h : ¬ (ty, jid) ∈ ps.runIntervals) :
    ¬ (ty, jid) ∈ (pollStep ps e).1.runIntervals := by
  cases e with
  | fetchTick resp => exact h
  | loopTick a r => exact h
  | intervalTick a b r =>
    rcases runIntervalTick_intervals ps a b r with hx | hx
    · show ¬ (ty, jid) ∈ (runIntervalTick ps a b r).1.runIntervals
      rw [hx]
      exact h
    · show ¬ (ty, jid) ∈ (runIntervalTick ps a b r).1.runIntervals
      rw [hx]
      intro hmem
      exact h (List.mem_of_mem_erase hmem)

/-- No polling step resurrects a cleared fetch job reference. -/
theorem pollStep_fetch_none (ps : PollSystem) (e : PollEvent)
    (h : ps.dash.fetchJobId = none) :
    (pollStep ps e).1.dash.fetchJobId = none := by
  cases e with
  | fetchTick resp =>
    show (fetchPollTick ps.dash resp).1.fetchJobId = none
    rw [fetchPollTick_of_none ps.dash resp h]
    exact h
  | loopTick a r =>
    show (analysisLoopTick ps.dash a r).1.fetchJobId = none
    rw [analysisLoopTick_fetchJobId]
    exact h
  | intervalTick a b r =>
    rw [show (pollStep ps (PollEvent.intervalTick a b r)).1.dash.fetchJobId
        = (runIntervalTick ps a b r).1.dash.fetchJobId from rfl,
      runIntervalTick_fetchJobId]
    exact h

/-!
## Claim C3 — PHASTEST availability probe gates submission
-/

/-- C3: on every PHASTEST run attempt the availability probe is the first
request issued; when the probe reports `unavailable` or itself fails,
`run-phastest` is never called for that attempt — no request beyond the
probe is made, no job entry is recorded, no polling interval is started —
and the fallback path is offered instead. -/
theorem c3_phastest_probe_gate :
    ∀ (ps : PollSystem) (probe : ProbeOutcome) (submit : SubmitOutcome) (now : String),
      (handleRunAnalysis ps "phastest" probe submit now).2.head?
        = some Request.phastestStatus
      ∧ ((probe = ProbeOutcome.fail ∨ probe = ProbeOutcome.ok "unavailable") →
          (handleRunAnalysis ps "phastest" probe submit now).2 = [Request.phastestStatus]
          ∧ ¬ Request.runPhastest ∈ (handleRunAnalysis ps "phastest" probe submit now).2
          ∧ (handleRunAnalysis ps "phastest" probe submit now).1.dash.showPhastestFallback
              = true
          ∧ (handleRunAnalysis ps "phastest" probe submit now).1.runIntervals
              = ps.runIntervals
          ∧ (handleRunAnalysis ps "phastest" probe submit now).1.dash.analysisJobs
              = ps.dash.analysisJobs) := by
  intro ps probe submit now
  constructor
  · cases probe with
    | fail => rfl
    | ok st =>
      by_cases h : st = "unavailable"
      · simp [handleRunAnalysis, h]
      · cases submit <;> simp [handleRunAnalysis, runSubmit, h]
  · rintro (h | h) <;> subst h <;>
      exact ⟨rfl,
        show ¬ Request.runPhastest ∈ [Request.phastestStatus] by decide,
        rfl, rfl, rfl⟩

/-- Witness for C3: with the probe failing, and with the probe reporting
`unavailable`, the only request is the probe and the fallback is shown. -/
theorem c3_phastest_probe_gate_witness :
    (handleRunAnalysis c1Sys "phastest" ProbeOutcome.fail
        (SubmitOutcome.ok "jx") "t1").2 = [Request.phastestStatus]
    ∧ (handleRunAnalysis c1Sys "phastest" (ProbeOutcome.ok "unavailable")
        (SubmitOutcome.ok "jx") "t1").1.dash.showPhastestFallback = true := by
  refine ⟨?_, ?_⟩
  · exact ((c3_phastest_probe_gate c1Sys ProbeOutcome.fail
      (SubmitOutcome.ok "jx") "t1").2 (Or.inl rfl)).1
  · exact ((c3_phastest_probe_gate c1Sys (ProbeOutcome.ok "unavailable")
      (SubmitOutcome.ok "jx") "t1").2 (Or.inr rfl)).2.2.1

/-!
## Claim C9 — deletion removes exactly the matching entries
-/

/-- C9: deleting a job removes from the client's job list exactly the
entries whose `job_id` equals the given identifier; every other entry is
preserved unchanged and in its original relative order (the remaining
list is a sublist of the original, and any selection of non-matching
entries is untouched); the Jobs page and the Results page behave
identically, and the only request issued is the cleanup call. -/
theorem c9_delete_exact :
    ∀ (jobs : List JobStatus) (jobId : String),
      (∀ j : JobStatus,
        j ∈ (JobsPage.handleDeleteJob jobs jobId).1 ↔ (j ∈ jobs ∧ j.job_id ≠ jobId))
      ∧ List.Sublist (JobsPage.handleDeleteJob jobs jobId).1 jobs
      ∧ (∀ p : JobStatus → Bool, (∀ j, p j = true → j.job_id ≠ jobId) →
          (JobsPage.handleDeleteJob jobs jobId).1.filter p = jobs.filter p)
      ∧ JobsPage.handleDeleteJob jobs jobId = ResultsPage.handleDeleteJob jobs jobId
      ∧ (JobsPage.handleDeleteJob jobs jobId).2 = [Request.cleanup jobId] := by
  intro jobs jobId
  refine ⟨?_, ?_, ?_, rfl, rfl⟩
  · intro j
    simp [JobsPage.handleDeleteJob, List.mem_filter, bne_iff_ne]
  · exact List.filter_sublist jobs
  · intro p hp
    have hpt : ∀ a ∈ jobs, (p a && (a.job_id != jobId)) = p a := by
      intro a _
      cases hpa : p a with
      | false => simp
      | true => simp [bne_iff_ne, hp a hpa]
    calc (JobsPage.handleDeleteJob jobs jobId).1.filter p
        = jobs.filter (fun a => p a && (a.job_id != jobId)) :=
          List.filter_filter _ jobs
      _ = jobs.filter p := List.filter_congr hpt

/-- Witness for C9 at a concrete two-job list: the unrelated job is kept,
the deleted one removed, and a selection of unrelated jobs is untouched. -/
theorem c9_delete_exact_witness :
    c9Keep ∈ (JobsPage.handleDeleteJob [c9Keep, c9Gone] "j-del").1
    ∧ ¬ c9Gone ∈ (JobsPage.handleDeleteJob [c9Keep, c9Gone] "j-del").1
    ∧ (JobsPage.handleDeleteJob [c9Keep, c9Gone] "j-del").1.filter
        (fun j => j.job_id == "j-keep")
      = ([c9Keep, c9Gone] : List JobStatus).filter (fun j => j.job_id == "j-keep") := by
  have h := c9_delete_exact [c9Keep, c9Gone] "j-del"
  refine ⟨(h.1 c9Keep).2 ⟨by decide, by decide⟩, ?_, ?_⟩
  · intro hmem
    exact ((h.1 c9Gone).1 hmem).2 (by decide)
  · refine h.2.2.1 (fun j => j.job_id == "j-keep") ?_
    intro j hj
    rw [eq_of_beq hj]
    decide

/-!
## Claim C10 — the Jobs page summary counters
-/

/-- C10: the three Jobs-page summary counters count exactly the jobs with
status in pending/running, completed, and failed respectively; a job in
any other status (for example paused) is counted by none of the three,
and the counters sum to the total number of jobs exactly when every job
is in one of those four statuses. -/
theorem c10_counters :
    ∀ jobs : List JobStatus,
      (∀ j : JobStatus,
        (j ∈ JobsPage.runningJobs jobs
          ↔ (j ∈ jobs ∧ (j.status = "pending" ∨ j.status = "running")))
        ∧ (j ∈ JobsPage.completedJobs jobs ↔ (j ∈ jobs ∧ j.status = "completed"))
        ∧ (j ∈ JobsPage.failedJobs jobs ↔ (j ∈ jobs ∧ j.status = "failed")))
      ∧ (∀ j : JobStatus, j.status = "paused" →
          ¬ j ∈ JobsPage.runningJobs jobs
          ∧ ¬ j ∈ JobsPage.completedJobs jobs
          ∧ ¬ j ∈ JobsPage.failedJobs jobs)
      ∧ ((JobsPage.runningJobs jobs).length + (JobsPage.completedJobs jobs).length
            + (JobsPage.failedJobs jobs).length = jobs.length
          ↔ ∀ j ∈ jobs, j.status = "pending" ∨ j.status = "running"
              ∨ j.status = "completed" ∨ j.status = "failed") := by
  intro jobs
  have hdisj : ∀ job : JobStatus,
      (if (["pending", "running"] : List String).contains job.status then 1 else 0)
      + (if job.status == "completed" then 1 else 0)
      + (if job.status == "failed" then 1 else 0) ≤ 1 := by
    intro job
    by_cases hp : job.status = "pending"
    · simp only [hp]
      decide
    · by_cases hr : job.status = "running"
      · simp only [hr]
        decide
      · by_cases hc : job.status = "completed"
        · simp only [hc]
          decide
        · by_cases hf : job.status = "failed"
          · simp only [hf]
            decide
          · have h1 : ¬ (job.status = "pending" ∨ job.status = "running") := by
              tauto
            simp [h1, hc, hf]
  refine ⟨?_, ?_, ?_⟩
  · intro j
    refine ⟨?_, ?_, ?_⟩
    · simp [JobsPage.runningJobs, List.mem_filter, List.contains]
    · simp [JobsPage.completedJobs, List.mem_filter]
    · simp [JobsPage.failedJobs, List.mem_filter]
  · intro j hpaused
    refine ⟨?_, ?_, ?_⟩
    · simp [JobsPage.runningJobs, List.mem_filter, List.contains, hpaused]
    · simp [JobsPage.completedJobs, List.mem_filter, hpaused]
    · simp [JobsPage.failedJobs, List.mem_filter, hpaused]
  · have hiff := three_disjoint_filter_length_eq_iff
      (fun job => (["pending", "running"] : List String).contains job.status)
      (fun job => job.status == "completed")
      (fun job => job.status == "failed") hdisj jobs
    constructor
    · intro hEq j hj
      rcases (hiff.1 hEq) j hj with h | h | h
      · rcases (contains_status_iff j.status).1 h with h' | h'
        · exact Or.inl h'
        · exact Or.inr (Or.inl h')
      · exact Or.inr (Or.inr (Or.inl (eq_of_beq h)))
      · exact Or.inr (Or.inr (Or.inr (eq_of_beq h)))
    · intro hAll
      apply hiff.2
      intro j hj
      rcases hAll j hj with h | h | h | h
      · exact Or.inl ((contains_status_iff j.status).2 (Or.inl h))
      · exact Or.inl ((contains_status_iff j.status).2 (Or.inr h))
      · exact Or.inr (Or.inl (beq_iff_eq.2 h))
      · exact Or.inr (Or.inr (beq_iff_eq.2 h))

/-- Witness for C10 at a concrete job list containing a paused job: the
paused job is counted by no counter and the counters do not sum to the
total. -/
theorem c10_counters_witness :
    ¬ c10Paused ∈ JobsPage.runningJobs c10Jobs
    ∧ ¬ ((JobsPage.runningJobs c10Jobs).length + (JobsPage.completedJobs c10Jobs).length
          + (JobsPage.failedJobs c10Jobs).length = c10Jobs.length) := by
  have h := c10_counters c10Jobs
  refine ⟨(h.2.1 c10Paused rfl).1, ?_⟩
  intro hEq
  rcases (h.2.2.1 hEq) c10Paused (by decide) with hx | hx | hx | hx <;>
    exact absurd hx (by decide)

/-!
## Claim C1 — polling ceases on a terminal status
-/

/-- C1 counterexample: after the shared analysis-jobs loop polls job `j1`
and receives the terminal (completed) status, the dedicated
per-submission interval registered for the same job still issues a
further status query for `j1`; and a fetch poll observing `completed`
with no result payload does not clear `fetchJobId`, so `f1` is queried
again after a response with terminal status. -/
theorem c1_counterexample :
    c1Done.status = "completed"
    ∧ (pollStep c1Sys (PollEvent.loopTick "phastest" (PollResponse.ok c1Done))).2
        = ["j1"]
    ∧ (pollStep (pollStep c1Sys (PollEvent.loopTick "phastest" (PollResponse.ok c1Done))).1
        (PollEvent.intervalTick "phastest" "j1" (PollResponse.ok c1Done))).2 = ["j1"]
    ∧ c1FetchDone.status = "completed"
    ∧ (pollStep c1FetchSys (PollEvent.fetchTick (PollResponse.ok c1FetchDone))).2
        = ["f1"]
    ∧ (pollStep (pollStep c1FetchSys (PollEvent.fetchTick (PollResponse.ok c1FetchDone))).1
        (PollEvent.fetchTick (PollResponse.ok c1FetchDone))).2 = ["f1"] := by
  decide

/-- C1 (amended): every Dashboard polling interval lies in the 2000-3000
ms band, and each polling mechanism separately ceases polling a `job_id`
once it observes a terminal status: the per-submission interval clears
itself on a completed or failed response, a cleared interval neither
queries nor is ever re-registered by polling steps; the shared
analysis-jobs loop never queries an entry whose stored status is not
pending/running; the fetch loop clears `fetchJobId` on a failed response
or on a completed response carrying a genome list, and a cleared
`fetchJobId` silences the fetch loop and stays cleared under polling
steps.  (A terminal response observed by one mechanism does not stop
another mechanism polling the same `job_id`, and a completed fetch
response without `result.genomes` does not stop the fetch loop, so this
per-mechanism form is the strongest that holds.) -/
theorem c1_amended :
    (2000 ≤ fetchPollIntervalMs ∧ fetchPollIntervalMs ≤ 3000)
    ∧ (2000 ≤ analysisLoopIntervalMs ∧ analysisLoopIntervalMs ≤ 3000)
    ∧ (2000 ≤ runAnalysisPollIntervalMs ∧ runAnalysisPollIntervalMs ≤ 3000)
    ∧ (∀ (ps : PollSystem) (ty jid : String) (st : JobStatus),
        st.status = "completed" ∨ st.status = "failed" →
        (runIntervalTick ps ty jid (PollResponse.ok st)).1.runIntervals
          = ps.runIntervals.erase (ty, jid))
    ∧ (∀ (ps : PollSystem) (ty jid : String) (resp : PollResponse),
        ¬ (ty, jid) ∈ ps.runIntervals →
        runIntervalTick ps ty jid resp = (ps, []))
    ∧ (∀ (ps : PollSystem) (e : PollEvent) (ty jid : String),
        ¬ (ty, jid) ∈ ps.runIntervals →
        ¬ (ty, jid) ∈ (pollStep ps e).1.runIntervals)
    ∧ (∀ (s : DashboardState) (ty : String) (job : JobStatus) (resp : PollResponse),
        lookupAnalysisJob s.analysisJobs ty = some job →
        ¬ (job.status = "pending" ∨ job.status = "running") →
        analysisLoopTick s ty resp = (s, []))
    ∧ (∀ (s : DashboardState) (st : JobStatus),
        st.status = "failed"
          ∨ (st.status = "completed" ∧ (resultGenomes st).isSome = true) →
        (fetchPollTick s (PollResponse.ok st)).1.fetchJobId = none)
    ∧ (∀ (s : DashboardState) (resp : PollResponse),
        s.fetchJobId = none → fetchPollTick s resp = (s, []))
    ∧ (∀ (ps : PollSystem) (e : PollEvent),
        ps.dash.fetchJobId = none → (pollStep ps e).1.dash.fetchJobId = none) := by
  refine ⟨⟨by decide, by decide⟩, ⟨by decide, by decide⟩, ⟨by decide, by decide⟩,
    ?_, ?_, ?_, ?_, ?_, ?_, ?_⟩
  · intro ps ty jid st h
    exact runIntervalTick_terminal ps ty jid st h
  · intro ps ty jid resp h
    exact runIntervalTick_not_mem ps ty jid resp h
  · intro ps e ty jid h
    exact pollStep_intervals_not_mem ps e ty jid h
  · intro s ty job resp hlook hstat
    exact analysisLoopTick_terminal s ty job resp hlook hstat
  · intro s st h
    exact fetchPollTick_terminal s st h
  · intro s resp h
    exact fetchPollTick_of_none s resp h
  · intro ps e h
    exact pollStep_fetch_none ps e h

/-- Witness for C1 (amended) at concrete states: the registered interval
is cleared by a terminal response, the loop is silent on a terminal
entry, and a failed fetch response clears `fetchJobId`. -/
theorem c1_amended_witness :
    (runIntervalTick c1Sys "phastest" "j1" (PollResponse.ok c1Done)).1.runIntervals = []
    ∧ analysisLoopTick c1TermDash "phastest" (PollResponse.ok c1Done) = (c1TermDash, [])
    ∧ (fetchPollTick c1FetchDash (PollResponse.ok c1FetchFailed)).1.fetchJobId = none := by
  obtain ⟨-, -, -, h4, -, -, h7, h8, -, -⟩ := c1_amended
  refine ⟨?_, ?_, ?_⟩
  · rw [h4 c1Sys "phastest" "j1" c1Done (Or.inl rfl)]
    decide
  · exact h7 c1TermDash "phastest" c1Done (PollResponse.ok c1Done) (by decide) (by decide)
  · exact h8 c1FetchDash c1FetchFailed (Or.inl rfl)

/-!
## Claim C4 — polling stops on a failed poll
-/

/-- C4 counterexample: a failing status poll of job `j2` by the shared
analysis-jobs loop leaves the client state completely unchanged, and the
next tick queries the same `job_id` again — the client does not stop
polling that job after the failing response. -/
theorem c4_counterexample :
    (pollStep c4Sys (PollEvent.loopTick "resfinder" PollResponse.fail)).2 = ["j2"]
    ∧ (pollStep c4Sys (PollEvent.loopTick "resfinder" PollResponse.fail)).1 = c4Sys
    ∧ (pollStep (pollStep c4Sys (PollEvent.loopTick "resfinder" PollResponse.fail)).1
        (PollEvent.loopTick "resfinder" PollResponse.fail)).2 = ["j2"] := by
  decide

/-- C4 (amended): only the dedicated per-submission interval stops
polling on a failed status poll (its catch clause clears the interval);
the Dashboard's shared analysis-jobs loop and its fetch-status loop only
log a failed poll — their state is unchanged, and while the entry remains
pending/running (or `fetchJobId` remains set) the same `job_id` is
queried again on the next tick. -/
theorem c4_amended :
    (∀ (ps : PollSystem) (ty jid : String),
        (runIntervalTick ps ty jid PollResponse.fail).1.runIntervals
          = ps.runIntervals.erase (ty, jid))
    ∧ (∀ (s : DashboardState) (ty : String),
        (analysisLoopTick s ty PollResponse.fail).1 = s)
    ∧ (∀ (s : DashboardState) (ty : String) (job : JobStatus),
        lookupAnalysisJob s.analysisJobs ty = some job →
        job.status = "pending" ∨ job.status = "running" →
        analysisLoopTick s ty PollResponse.fail = (s, [job.job_id]))
    ∧ (∀ (s : DashboardState) (jid : String),
        s.fetchJobId = some jid →
        fetchPollTick s PollResponse.fail = (s, [jid])) := by
  refine ⟨?_, ?_, ?_, ?_⟩
  · intro ps ty jid
    exact runIntervalTick_fail ps ty jid
  · intro s ty
    exact analysisLoopTick_fail s ty
  · intro s ty job hlook hpoll
    exact analysisLoopTick_fail_queries s ty job hlook hpoll
  · intro s jid h
    exact fetchPollTick_fail s jid h

/-- Witness for C4 (amended) at concrete states: the interval is cleared
by a failed poll, while the loop and the fetch poller keep the state and
query the same job again. -/
theorem c4_amended_witness :
    (runIntervalTick c4Sys "resfinder" "j2" PollResponse.fail).1.runIntervals = []
    ∧ analysisLoopTick c4Sys.dash "resfinder" PollResponse.fail = (c4Sys.dash, ["j2"])
    ∧ fetchPollTick c1FetchDash PollResponse.fail = (c1FetchDash, ["f1"]) := by
  obtain ⟨h1, -, h3, h4⟩ := c4_amended
  refine ⟨?_, ?_, ?_⟩
  · rw [h1 c4Sys "resfinder" "j2"]
    decide
  · exact h3 c4Sys.dash "resfinder" c4Job (by decide) (Or.inl rfl)
  · exact h4 c1FetchDash "f1" rfl
